import Mathlib

set_option maxHeartbeats 1000000

/-!
Verification of the mesh-to-STEP conversion orchestration in
`src/scripts/convert.py` (Stepifi).  The Python script drives an external
geometry kernel (FreeCAD); here the kernel, the loaders and the filesystem are
modelled as an explicit behaviour record (`Kernel`), and every control-flow
decision of the script is translated function by function.  `Except.error ()`
models a raised Python exception at a kernel call site.
-/

namespace Stepifi

/-- Abstract state of a FreeCAD mesh object.  `pts`, `facets`, `edges` model the
`CountPoints`, `CountFacets`, `CountEdges` attributes read by the script; `tag`
stands for the rest of the mutable geometric state, so that kernel operations
can distinguish meshes whose counts coincide. -/
structure Mesh where
  pts : Nat
  facets : Nat
  edges : Nat
  tag : Nat
deriving DecidableEq, Repr

/-- Opaque handle to a FreeCAD `Part` shape. -/
structure Shape where
  sid : Nat
deriving DecidableEq, Repr

/-- Behaviour of the FreeCAD geometry kernel and of the filesystem as observed
by `convert.py`.  One field per operation the script invokes; returning
`Except.error ()` models the call raising a Python exception.  `removeSplitter`
is called by the script in two forms (with an explicit tolerance and without
one, lines 153/160 vs 167), modelled as two fields.  `exportStep` bundles the
`Import.export` call with the subsequent `os.path.exists`/`os.path.getsize`
observation: `.ok none` means the call returned but the output file does not
exist, `.ok (some n)` means the file exists with `n` bytes. -/
structure Kernel where
  removeDuplicatedPoints : Mesh → Except Unit Mesh
  removeDuplicatedFacets : Mesh → Except Unit Mesh
  hasSelfIntersections : Mesh → Except Unit Bool
  fixSelfIntersections : Mesh → Except Unit Mesh
  fixDegenerations0 : Mesh → Except Unit Mesh
  fixDegenerationsDefault : Mesh → Except Unit Mesh
  hasNonManifolds : Mesh → Except Unit Bool
  removeNonManifolds : Mesh → Except Unit Mesh
  fillupHoles1000 : Mesh → Except Unit Mesh
  fillupHolesDefault : Mesh → Except Unit Mesh
  harmonizeNormals : Mesh → Except Unit Mesh
  isSolid : Mesh → Except Unit Bool
  volume : Mesh → Except Unit Int
  area : Mesh → Except Unit Int
  makeShapeFromMesh : Mesh → Rat → Except Unit Shape
  makeSolid : Shape → Except Unit Shape
  refine : Shape → Except Unit Shape
  removeSplitterTol : Shape → Rat → Except Unit Shape
  removeSplitterNoTol : Shape → Except Unit Shape
  makeCompound : List Shape → Except Unit Shape
  inputExists : Bool
  loadStl : Except String Mesh
  load3mf : Except String (List Mesh)
  exportStep : Shape → Except Unit (Option Nat)

/-! ## Repair pipeline (`repair_mesh`, lines 80-143)

Each `step_*` definition translates one block of `repair_mesh`.  The running
value is the mesh together with the accumulated `repairs` log; a step returns
`Except.error ()` exactly when the corresponding Python block lets an exception
escape (i.e. when the block has no `try`/`except` of its own). -/

/-- Lines 84-87: `removeDuplicatedPoints` (unguarded), log the count removed if
the point count dropped. -/
def step_dup_points (k : Kernel) : Mesh × List String → Except Unit (Mesh × List String)
  | (m, rs) =>
    match k.removeDuplicatedPoints m with
    | .error e => .error e
    | .ok m2 =>
      .ok (m2, if m2.pts < m.pts then rs ++ [s!"Removed {m.pts - m2.pts} duplicate points"] else rs)

/-- Lines 89-92: `removeDuplicatedFacets` (unguarded), log the count removed if
the facet count dropped. -/
def step_dup_facets (k : Kernel) : Mesh × List String → Except Unit (Mesh × List String)
  | (m, rs) =>
    match k.removeDuplicatedFacets m with
    | .error e => .error e
    | .ok m2 =>
      .ok (m2, if m2.facets < m.facets then rs ++ [s!"Removed {m.facets - m2.facets} duplicate facets"] else rs)

/-- Lines 94-102: self-intersection check and fix, only when not
`skip_expensive`; the check, the fix and the re-check are all unguarded.  The
log entry is added only when the post-fix check reports no remaining
self-intersections. -/
def step_self_intersections (k : Kernel) (skip_expensive : Bool) :
    Mesh × List String → Except Unit (Mesh × List String)
  | (m, rs) =>
    if skip_expensive then .ok (m, rs)
    else
      match k.hasSelfIntersections m with
      | .error e => .error e
      | .ok false => .ok (m, rs)
      | .ok true =>
        match k.fixSelfIntersections m with
        | .error e => .error e
        | .ok m2 =>
          match k.hasSelfIntersections m2 with
          | .error e => .error e
          | .ok b2 => .ok (m2, if !b2 then rs ++ ["Fixed self-intersections"] else rs)

/-- Lines 104-113: `fixDegenerations(0.0)` guarded by `try`, with a guarded
`fixDegenerations()` fallback; both failing is silent. -/
def step_degenerations (k : Kernel) : Mesh × List String → Except Unit (Mesh × List String)
  | (m, rs) =>
    match k.fixDegenerations0 m with
    | .ok m2 => .ok (m2, rs ++ ["Fixed degenerations"])
    | .error _ =>
      match k.fixDegenerationsDefault m with
      | .ok m2 => .ok (m2, rs ++ ["Fixed degenerations"])
      | .error _ => .ok (m, rs)

/-- Lines 115-125: non-manifold handling, only when not `skip_expensive`.  The
`hasNonManifolds` *detection* call is unguarded; the removal and the re-check
sit inside `try`/`except: pass`.  If the removal succeeds but the re-check
raises, the mutation persists and the exception is swallowed. -/
def step_non_manifolds (k : Kernel) (skip_expensive : Bool) :
    Mesh × List String → Except Unit (Mesh × List String)
  | (m, rs) =>
    if skip_expensive then .ok (m, rs)
    else
      match k.hasNonManifolds m with
      | .error e => .error e
      | .ok false => .ok (m, rs)
      | .ok true =>
        match k.removeNonManifolds m with
        | .error _ => .ok (m, rs)
        | .ok m2 =>
          match k.hasNonManifolds m2 with
          | .error _ => .ok (m2, rs)
          | .ok b2 => .ok (m2, if !b2 then rs ++ ["Removed non-manifolds"] else rs)

/-- Lines 127-136: `fillupHoles(1000)` guarded, with a guarded `fillupHoles()`
fallback; both failing is silent. -/
def step_fill_holes (k : Kernel) : Mesh × List String → Except Unit (Mesh × List String)
  | (m, rs) =>
    match k.fillupHoles1000 m with
    | .ok m2 => .ok (m2, rs ++ ["Filled holes"])
    | .error _ =>
      match k.fillupHolesDefault m with
      | .ok m2 => .ok (m2, rs ++ ["Filled holes"])
      | .error _ => .ok (m, rs)

/-- Lines 138-140: `harmonizeNormals` (unguarded), always logged on success. -/
def step_harmonize (k : Kernel) : Mesh × List String → Except Unit (Mesh × List String)
  | (m, rs) =>
    match k.harmonizeNormals m with
    | .error e => .error e
    | .ok m2 => .ok (m2, rs ++ ["Harmonized normals"])

/-- `repair_mesh(mesh, skip_expensive)` (lines 80-143): the seven repair blocks
in source order.  An `Except.error` result models an exception escaping
`repair_mesh` to its caller. -/
def repair_mesh (k : Kernel) (m : Mesh) (skip_expensive : Bool) :
    Except Unit (Mesh × List String) :=
  (step_dup_points k (m, [])).bind fun s1 =>
  (step_dup_facets k s1).bind fun s2 =>
  (step_self_intersections k skip_expensive s2).bind fun s3 =>
  (step_degenerations k s3).bind fun s4 =>
  (step_non_manifolds k skip_expensive s4).bind fun s5 =>
  (step_fill_holes k s5).bind fun s6 =>
  step_harmonize k s6

/-! ## Diagnostics (`get_mesh_info`, lines 57-77) -/

/-- One per-mesh diagnostics record.  `volume` is `none` when the mesh is not
solid (Python `None`); `has_non_manifolds` / `has_self_intersections` are
`none` exactly when the corresponding JSON keys are absent. -/
structure MeshInfo where
  points : Nat
  facets : Nat
  edges : Nat
  is_solid : Bool
  volume : Option Int
  area : Int
  has_non_manifolds : Option Bool := none
  has_self_intersections : Option Bool := none
deriving DecidableEq, Repr

/-- `get_mesh_info(mesh, skip_expensive)` (lines 57-77).  All kernel queries are
unguarded, so any of them raising propagates to the caller. -/
def get_mesh_info (k : Kernel) (m : Mesh) (skip_expensive : Bool) : Except Unit MeshInfo :=
  match k.isSolid m with
  | .error e => .error e
  | .ok sol =>
    match (if sol then (k.volume m).map some else .ok none) with
    | .error e => .error e
    | .ok vol =>
      match k.area m with
      | .error e => .error e
      | .ok ar =>
        if skip_expensive then
          .ok { points := m.pts, facets := m.facets, edges := m.edges,
                is_solid := sol, volume := vol, area := ar }
        else
          match k.hasNonManifolds m with
          | .error e => .error e
          | .ok hnm =>
            match k.hasSelfIntersections m with
            | .error e => .error e
            | .ok hsi =>
              .ok { points := m.pts, facets := m.facets, edges := m.edges,
                    is_solid := sol, volume := vol, area := ar,
                    has_non_manifolds := some hnm, has_self_intersections := some hsi }

/-! ## Planar-face merge cascade (`merge_planar_faces`, lines 146-172) -/

/-- `merge_planar_faces(shape, tolerance)` (lines 146-172): (a) refine then
`removeSplitter(tolerance)`; on any failure (b) `removeSplitter(tolerance)` on
the unrefined shape; on failure (c) `removeSplitter()` without tolerance; on
failure (d) the original shape with the merged flag `False`.  The function
never raises. -/
def merge_planar_faces (k : Kernel) (shape : Shape) (tolerance : Rat) : Shape × Bool :=
  match (k.refine shape).bind (fun refined => k.removeSplitterTol refined tolerance) with
  | .ok merged => (merged, true)
  | .error _ =>
    match k.removeSplitterTol shape tolerance with
    | .ok merged => (merged, true)
    | .error _ =>
      match k.removeSplitterNoTol shape with
      | .ok merged => (merged, true)
      | .error _ => (shape, false)

/-! ## Scene resolver (`parse_3mf_model_xml`, second pass and fallback,
lines 248-292)

The first XML pass (lines 195-246) builds `objects_dict`: an insertion-ordered
dictionary from the `id` attribute (Python `obj.get('id')`, which may be
`None`) to either a mesh entry `{'type': 'mesh', vertices, triangles}` or a
component entry `{'type': 'component', 'ref': ref_id}`.  We take that table as
input (keys distinct, as in a Python dict) and translate the build-resolution
pass and the fallback, which is what claims about the resolver are about. -/

/-- One entry of `objects_dict`.  A component holds the single
`component.get('objectid')` reference (possibly `None`); a mesh entry holds the
parsed vertex and triangle data.  Coordinates are parsed with `float(...)`
(modelled as `Rat`), indices with `int(...)` (modelled as `Int`). -/
inductive SceneObject where
  | component (ref : Option String)
  | meshData (vertices : List (Rat × Rat × Rat)) (triangles : List (Int × Int × Int))
deriving DecidableEq, Repr

/-- The per-instance mesh payload appended to `meshes_data`. -/
structure RawMesh where
  vertices : List (Rat × Rat × Rat)
  triangles : List (Int × Int × Int)
deriving DecidableEq, Repr

/-- Resolution of a single build item (lines 254-279).  `objectid` lookup miss
drops the item; a component entry is dereferenced exactly once, and only a mesh
entry found there yields data — a second component, like a dangling reference,
drops the item. -/
def resolve_item (dict : List (Option String × SceneObject)) (obj_id : Option String) :
    Option RawMesh :=
  match dict.lookup obj_id with
  | none => none
  | some (.component ref) =>
    match dict.lookup ref with
    | none => none
    | some (.meshData v t) => some ⟨v, t⟩
    | some (.component _) => none
  | some (.meshData v t) => some ⟨v, t⟩

/-- The build loop (lines 252-279): items that resolve contribute in order,
items that fail to resolve are skipped. -/
def resolveBuildItems (dict : List (Option String × SceneObject))
    (items : List (Option String)) : List RawMesh :=
  items.filterMap (resolve_item dict)

/-- The fallback collection (lines 284-289): every mesh-typed object of the
table, in table (document) order. -/
def allMeshObjects (dict : List (Option String × SceneObject)) : List RawMesh :=
  dict.filterMap fun p =>
    match p.2 with
    | .meshData v t => some ⟨v, t⟩
    | .component _ => none

/-- Lines 248-292: `meshes_data` is the build resolution when a `build` element
exists (else empty), and the fallback replaces it whenever it is empty. -/
def build_meshes (dict : List (Option String × SceneObject))
    (build : Option (List (Option String))) : List RawMesh :=
  let meshes_data :=
    match build with
    | none => []
    | some items => resolveBuildItems dict items
  if meshes_data.length = 0 then allMeshObjects dict else meshes_data

/-! ## The conversion driver (`convert`, lines 406-597)

`convert` is translated in layers that follow the source top to bottom; each
layer receives the `result` dictionary accumulated so far.  The outcome is
either `.json r` — the script reached `clean_exit(result)` and printed `r` —
or `.crash`: an exception propagated out of `convert` (the script has no
top-level handler around it), so the process dies without emitting JSON.

Alongside the outcome we collect a trace of the merge-decision `debug_print`
events of the source (lines 508, 557, 561, 565), which is how "a merge was
attempted/skipped here" is observable; debug output goes to a separate channel
and is not part of the JSON result. -/

/-- Merge-decision debug events of `convert`:
`perSolidMerge i` = line 508 (`"Merging planar faces for solid {i+1}..."`, `i`
0-based here), `compoundMerge` = line 557 (single-object compound-level merge),
`multiSkip` = line 561 (multi-object file, merged per-solid), `sizeSkip` =
line 565 (mesh too large). -/
inductive Ev where
  | perSolidMerge (i : Nat)
  | compoundMerge
  | multiSkip
  | sizeSkip
deriving DecidableEq, Repr

/-- The JSON `result` dictionary.  Fields that the script only adds on some
paths are `Option` (field absent = `none`); the per-index diagnostics keys
`mesh_info_before_{i}` / `mesh_info_after_{i}` are the association lists, and
`mesh_info_before` / `mesh_info_after` are the legacy index-0 aliases
(lines 472-475).  `stage` exists in the schema (the module-level FreeCAD import
guard at lines 37-44 emits it) but `convert` itself never writes it. -/
structure ConvResult where
  success : Bool
  input : String
  output : String
  input_format : String
  tolerance : Rat
  mesh_info_before_idx : List (Nat × MeshInfo) := []
  mesh_info_after_idx : List (Nat × MeshInfo) := []
  mesh_info_before : Option MeshInfo := none
  mesh_info_after : Option MeshInfo := none
  repairs : List String := []
  is_solid : Option Bool := none
  merged_planar_faces : Option Bool := none
  merged_per_solid : Option Bool := none
  skipped_merge_reason : Option String := none
  output_size : Option Nat := none
  error : Option String := none
  stage : Option String := none
deriving DecidableEq, Repr

/-- Process outcome: one JSON document on the restored stdout, or a crash with
no JSON at all. -/
inductive Outcome where
  | json (r : ConvResult)
  | crash
deriving DecidableEq, Repr

/-- Lines 431-434: dispatch on the input format; STL loads one mesh, wrapped in
a singleton list. -/
def load_meshes (k : Kernel) (input_format : String) : Except String (List Mesh) :=
  if input_format = "3mf" then k.load3mf
  else k.loadStl.map fun m => [m]

/-- Line 440: `len(meshes) == 0 or (len(meshes) == 1 and meshes[0].CountFacets == 0)`. -/
def meshesEmpty : List Mesh → Bool
  | [] => true
  | [m] => m.facets == 0
  | _ :: _ :: _ => false

/-- Line 445: `sum(m.CountFacets for m in meshes)`. -/
def totalFacets (meshes : List Mesh) : Nat :=
  (meshes.map Mesh.facets).sum

/-- Line 448: `skip_expensive = total_facets > 50000`. -/
def skipExpensive (meshes : List Mesh) : Bool :=
  totalFacets meshes > 50000

/-- The per-mesh diagnostics/repair loop (lines 456-467), `i` the running
index.  Produces the indexed before/after records, the prefixed repair log and
the processed meshes; any exception from `get_mesh_info` or `repair_mesh`
propagates (the loop body is unguarded). -/
def processMeshes (k : Kernel) (skip_expensive rep : Bool) :
    Nat → List Mesh →
    Except Unit (List (Nat × MeshInfo) × List (Nat × MeshInfo) × List String × List Mesh)
  | _, [] => .ok ([], [], [], [])
  | i, m :: rest =>
    match get_mesh_info k m skip_expensive with
    | .error e => .error e
    | .ok infoB =>
      if rep then
        match repair_mesh k m skip_expensive with
        | .error e => .error e
        | .ok (m2, reps) =>
          match get_mesh_info k m2 skip_expensive with
          | .error e => .error e
          | .ok infoA =>
            match processMeshes k skip_expensive rep (i + 1) rest with
            | .error e => .error e
            | .ok (bs, ias, rs, ps) =>
              .ok ((i, infoB) :: bs, (i, infoA) :: ias,
                   reps.map (fun r => s!"Mesh {i + 1}: {r}") ++ rs, m2 :: ps)
      else
        match processMeshes k skip_expensive rep (i + 1) rest with
        | .error e => .error e
        | .ok (bs, ias, rs, ps) =>
          .ok ((i, infoB) :: bs, ias, rs, m :: ps)

/-- The shape-conversion loop (lines 489-520), `i` the running index.
`makeShapeFromMesh` is unguarded (tolerance ×5, line 495); `makeSolid` sits in
`try`: on success the solid — merged per-solid first when its mesh has at most
100000 facets (lines 507-512, tolerance ×10) — joins `solids`, on failure the
unconverted shape joins `shapes` (line 520).  Returns `(solids, shapes, trace)`. -/
def buildShapes (k : Kernel) (tolerance : Rat) :
    Nat → List Mesh → Except Unit (List Shape × List Shape × List Ev)
  | _, [] => .ok ([], [], [])
  | i, m :: rest =>
    match k.makeShapeFromMesh m (tolerance * 5) with
    | .error e => .error e
    | .ok shape =>
      match k.makeSolid shape with
      | .ok solid =>
        match buildShapes k tolerance (i + 1) rest with
        | .error e => .error e
        | .ok (ss, hs, tr) =>
          if m.facets ≤ 100000 then
            .ok ((merge_planar_faces k solid (tolerance * 10)).1 :: ss, hs,
                 Ev.perSolidMerge i :: tr)
          else
            .ok (solid :: ss, hs, tr)
      | .error _ =>
        match buildShapes k tolerance (i + 1) rest with
        | .error e => .error e
        | .ok (ss, hs, tr) => .ok (ss, shape :: hs, tr)

/-- Final-object assembly (lines 522-551): homogeneous solids, homogeneous
shells, or the mixed branch; a single object passes through, otherwise
`makeCompound` (unguarded) combines the list.  Returns the `is_solid` flag and
the final shape. -/
def assemble (k : Kernel) (solids shapes : List Shape) : Except Unit (Bool × Shape) :=
  if solids.length > 0 ∧ shapes.length = 0 then
    match solids with
    | [s] => .ok (true, s)
    | _ => (k.makeCompound solids).map fun c => (true, c)
  else if shapes.length > 0 ∧ solids.length = 0 then
    match shapes with
    | [s] => .ok (false, s)
    | _ => (k.makeCompound shapes).map fun c => (false, c)
  else
    let all := solids ++ shapes
    match all with
    | [s] => .ok (false, s)
    | _ => (k.makeCompound all).map fun c => (false, c)

/-- The compound-level merge decision (lines 553-567): exactly one processed
mesh and `total_facets ≤ 100000` → merge the final shape with tolerance ×10 and
record the outcome flag; more than one mesh → record
`merged_planar_faces = merged_per_solid = true` without touching the shape;
otherwise record the size skip.  Returns the (possibly merged) final shape,
the updated result, and the trace extended by the branch's debug event. -/
def compoundMergeDecision (k : Kernel) (res : ConvResult) (tolerance : Rat)
    (total_facets np : Nat) (final : Shape) (tr : List Ev) :
    Shape × ConvResult × List Ev :=
  if np = 1 ∧ total_facets ≤ 100000 then
    let fm := merge_planar_faces k final (tolerance * 10)
    (fm.1, { res with merged_planar_faces := some fm.2 }, tr ++ [Ev.compoundMerge])
  else if np > 1 then
    (final, { res with merged_planar_faces := some true, merged_per_solid := some true },
     tr ++ [Ev.multiSkip])
  else
    (final,
     { res with
         merged_planar_faces := some false
         skipped_merge_reason := some s!"Mesh too large ({total_facets} facets)" },
     tr ++ [Ev.sizeSkip])

/-- Lines 553-597: the compound-level merge decision, then export.
`exportStep` raising is a crash; the file missing afterwards is the
`"STEP export failed"` JSON; otherwise success with the observed byte size. -/
def convertAssembled (k : Kernel) (res : ConvResult) (tolerance : Rat)
    (total_facets np : Nat) (final : Shape) (tr : List Ev) : Outcome × List Ev :=
  let step := compoundMergeDecision k res tolerance total_facets np final tr
  match k.exportStep step.1 with
  | .error _ => (.crash, step.2.2)
  | .ok none => (.json { step.2.1 with error := some "STEP export failed" }, step.2.2)
  | .ok (some size) =>
    (.json { step.2.1 with success := true, output_size := some size }, step.2.2)

/-- Lines 477-551: the `info_only` early success exit, then shape building and
assembly. -/
def convertProcessed (k : Kernel) (res : ConvResult) (tolerance : Rat)
    (total_facets : Nat) (info_only : Bool) (processed : List Mesh) : Outcome × List Ev :=
  if info_only then (.json { res with success := true }, [])
  else
    match buildShapes k tolerance 0 processed with
    | .error _ => (.crash, [])
    | .ok (solids, shapes, tr) =>
      match assemble k solids shapes with
      | .error _ => (.crash, tr)
      | .ok (b, final) =>
        convertAssembled k { res with is_solid := some b } tolerance total_facets
          processed.length final tr

/-- The `result` dictionary as it stands after the diagnostics/repair loop and
the legacy aliasing (lines 469-475). -/
def resAfterProcess (res0 : ConvResult) (bs ias : List (Nat × MeshInfo))
    (rs : List String) : ConvResult :=
  { res0 with
      mesh_info_before_idx := bs
      mesh_info_after_idx := ias
      repairs := rs
      mesh_info_before := bs.lookup 0
      mesh_info_after := ias.lookup 0 }

/-- Lines 440-480: the facet emptiness check, the size heuristic, and the
diagnostics/repair loop (whose exceptions crash the process). -/
def convertLoaded (k : Kernel) (res0 : ConvResult) (tolerance : Rat)
    (rep info_only : Bool) (input_format : String) (meshes : List Mesh) :
    Outcome × List Ev :=
  if meshesEmpty meshes then
    (.json { res0 with error := some (input_format.toUpper ++ " contains no facets") }, [])
  else
    match processMeshes k (skipExpensive meshes) rep 0 meshes with
    | .error _ => (.crash, [])
    | .ok (bs, ias, rs, ps) =>
      convertProcessed k (resAfterProcess res0 bs ias rs) tolerance
        (totalFacets meshes) info_only ps

/-- The initial `result` dictionary (lines 416-422): failure by default, the
job parameters echoed. -/
def initRes (input_path output_path : String) (tolerance : Rat)
    (input_format : String) : ConvResult :=
  { success := false, input := input_path, output := output_path,
    input_format := input_format, tolerance := tolerance }

/-- `convert(input_path, output_path, tolerance, repair, info_only,
input_format)` (lines 406-597).  The input-existence check (line 424) and the
guarded load (lines 430-438); the rest is delegated to the layers above. -/
def convert (k : Kernel) (input_path output_path : String) (tolerance : Rat)
    (rep info_only : Bool) (input_format : String) : Outcome × List Ev :=
  let res0 : ConvResult := initRes input_path output_path tolerance input_format
  if k.inputExists = false then
    (.json { res0 with error := some "Input file not found" }, [])
  else
    match load_meshes k input_format with
    | .error e =>
      (.json { res0 with
        error := some ("Failed to load " ++ input_format.toUpper ++ " file: " ++ e) }, [])
    | .ok meshes => convertLoaded k res0 tolerance rep info_only input_format meshes

/-! ## Inversion lemmas for the conversion layers -/

theorem convertAssembled_json_cases (k : Kernel) (res : ConvResult) (tol : Rat)
    (total np : Nat) (final : Shape) (tr : List Ev) (r : ConvResult) (tr2 : List Ev)
    (h : convertAssembled k res tol total np final tr = (.json r, tr2)) :
    (∃ n, k.exportStep (compoundMergeDecision k res tol total np final tr).1 = .ok (some n) ∧
        r = { (compoundMergeDecision k res tol total np final tr).2.1 with
              success := true, output_size := some n } ∧
        tr2 = (compoundMergeDecision k res tol total np final tr).2.2) ∨
    (k.exportStep (compoundMergeDecision k res tol total np final tr).1 = .ok none ∧
        r = { (compoundMergeDecision k res tol total np final tr).2.1 with
              error := some "STEP export failed" } ∧
        tr2 = (compoundMergeDecision k res tol total np final tr).2.2) := by
  simp only [convertAssembled] at h
  split at h
  · simp at h
  · rename_i hexp
    simp only [Prod.mk.injEq, Outcome.json.injEq] at h
    exact Or.inr ⟨hexp, h.1.symm, h.2.symm⟩
  · rename_i n hexp
    simp only [Prod.mk.injEq, Outcome.json.injEq] at h
    exact Or.inl ⟨n, hexp, h.1.symm, h.2.symm⟩

theorem convertProcessed_json_cases (k : Kernel) (res : ConvResult) (tol : Rat)
    (total : Nat) (io : Bool) (ps : List Mesh) (r : ConvResult) (tr : List Ev)
    (h : convertProcessed k res tol total io ps = (.json r, tr)) :
    (io = true ∧ r = { res with success := true } ∧ tr = []) ∨
    (io = false ∧ ∃ ss hs tr0 b final,
        buildShapes k tol 0 ps = .ok (ss, hs, tr0) ∧
        assemble k ss hs = .ok (b, final) ∧
        convertAssembled k { res with is_solid := some b } tol total ps.length final tr0 =
          (.json r, tr)) := by
  unfold convertProcessed at h
  by_cases hio : io = true
  · rw [if_pos hio] at h
    simp only [Prod.mk.injEq, Outcome.json.injEq] at h
    exact Or.inl ⟨hio, h.1.symm, h.2.symm⟩
  · rw [if_neg hio] at h
    split at h
    · simp at h
    · rename_i ss hs tr0 hb
      split at h
      · simp at h
      · rename_i b final ha
        exact Or.inr ⟨Bool.eq_false_iff.mpr hio, ss, hs, tr0, b, final, hb, ha, h⟩

theorem convertLoaded_json_cases (k : Kernel) (res0 : ConvResult) (tol : Rat)
    (rep io : Bool) (fmt : String) (ms : List Mesh) (r : ConvResult) (tr : List Ev)
    (h : convertLoaded k res0 tol rep io fmt ms = (.json r, tr)) :
    (meshesEmpty ms = true ∧
        r = { res0 with error := some (fmt.toUpper ++ " contains no facets") } ∧ tr = []) ∨
    (meshesEmpty ms = false ∧ ∃ bs ias rs ps,
        processMeshes k (skipExpensive ms) rep 0 ms = .ok (bs, ias, rs, ps) ∧
        convertProcessed k (resAfterProcess res0 bs ias rs) tol (totalFacets ms) io ps =
          (.json r, tr)) := by
  unfold convertLoaded at h
  by_cases hme : meshesEmpty ms = true
  · rw [if_pos hme] at h
    simp only [Prod.mk.injEq, Outcome.json.injEq] at h
    exact Or.inl ⟨hme, h.1.symm, h.2.symm⟩
  · rw [if_neg hme] at h
    split at h
    · simp at h
    · rename_i bs ias rs ps hp
      exact Or.inr ⟨Bool.eq_false_iff.mpr hme, bs, ias, rs, ps, hp, h⟩

theorem convert_json_cases (k : Kernel) (ip op : String) (tol : Rat) (rep io : Bool)
    (fmt : String) (r : ConvResult) (tr : List Ev)
    (h : convert k ip op tol rep io fmt = (.json r, tr)) :
    (k.inputExists = false ∧
        r = { initRes ip op tol fmt with error := some "Input file not found" } ∧ tr = []) ∨
    (k.inputExists = true ∧ ∃ e, load_meshes k fmt = .error e ∧
        r = { initRes ip op tol fmt with
              error := some ("Failed to load " ++ fmt.toUpper ++ " file: " ++ e) } ∧ tr = []) ∨
    (k.inputExists = true ∧ ∃ ms, load_meshes k fmt = .ok ms ∧
        convertLoaded k (initRes ip op tol fmt) tol rep io fmt ms = (.json r, tr)) := by
  simp only [convert] at h
  by_cases hex : k.inputExists = false
  · rw [if_pos hex] at h
    simp only [Prod.mk.injEq, Outcome.json.injEq] at h
    exact Or.inl ⟨hex, h.1.symm, h.2.symm⟩
  · have hex2 : k.inputExists = true := by
      cases hkx : k.inputExists
      · exact absurd hkx hex
      · rfl
    rw [if_neg hex] at h
    split at h
    · rename_i e hl
      simp only [Prod.mk.injEq, Outcome.json.injEq] at h
      exact Or.inr (Or.inl ⟨hex2, e, hl, h.1.symm, h.2.symm⟩)
    · rename_i ms hl
      exact Or.inr (Or.inr ⟨hex2, ms, hl, h⟩)

/-- Composition of the happy path down to `convertProcessed`: with the input
present, the load successful, the mesh list non-degenerate and the
diagnostics/repair loop successful, `convert` is the remaining pipeline. -/
theorem convert_main_path (k : Kernel) (ip op : String) (tol : Rat) (rep io : Bool)
    (fmt : String) (ms : List Mesh) (bs ias : List (Nat × MeshInfo)) (rs : List String)
    (ps : List Mesh)
    (hex : k.inputExists = true) (hload : load_meshes k fmt = .ok ms)
    (hne : meshesEmpty ms = false)
    (hproc : processMeshes k (skipExpensive ms) rep 0 ms = .ok (bs, ias, rs, ps)) :
    convert k ip op tol rep io fmt =
      convertProcessed k (resAfterProcess (initRes ip op tol fmt) bs ias rs) tol
        (totalFacets ms) io ps := by
  simp only [convert, hex, Bool.true_eq_false, hload, convertLoaded, hne,
    Bool.false_eq_true, hproc, if_false]

/-! ## Concrete scenarios

Concrete kernels used by the counterexamples and witnesses.  `kBase` is a
benign run: every kernel call succeeds, nothing changes the mesh, every shape
operation returns a distinguishable handle. -/

/-- A small concrete mesh (8 points, 12 facets, 18 edges). -/
def mCube : Mesh := ⟨8, 12, 18, 1⟩

/-- A second concrete mesh with the same counts but distinct state. -/
def mCube2 : Mesh := ⟨8, 12, 18, 2⟩

/-- Benign kernel behaviour: all operations succeed, repairs change nothing,
`makeShapeFromMesh` hands out the mesh tag as the shape id, merging maps shape
`s` to `s + 1000` after refining to `s + 1`, compounds get id 99, the input
exists, the STL loader returns `mCube`, the 3MF loader returns two meshes, and
export writes a 1234-byte file. -/
def kBase : Kernel where
  removeDuplicatedPoints := fun m => .ok m
  removeDuplicatedFacets := fun m => .ok m
  hasSelfIntersections := fun _ => .ok false
  fixSelfIntersections := fun m => .ok m
  fixDegenerations0 := fun m => .ok m
  fixDegenerationsDefault := fun m => .ok m
  hasNonManifolds := fun _ => .ok false
  removeNonManifolds := fun m => .ok m
  fillupHoles1000 := fun m => .ok m
  fillupHolesDefault := fun m => .ok m
  harmonizeNormals := fun m => .ok m
  isSolid := fun _ => .ok true
  volume := fun _ => .ok 1
  area := fun _ => .ok 6
  makeShapeFromMesh := fun m _ => .ok ⟨m.tag⟩
  makeSolid := fun s => .ok s
  refine := fun s => .ok ⟨s.sid + 1⟩
  removeSplitterTol := fun s _ => .ok ⟨s.sid + 1000⟩
  removeSplitterNoTol := fun s => .ok ⟨s.sid + 2000⟩
  makeCompound := fun _ => .ok ⟨99⟩
  inputExists := true
  loadStl := .ok mCube
  load3mf := .ok [mCube, mCube2]
  exportStep := fun _ => .ok (some 1234)

/-- Projection of an outcome to its JSON result, `none` on a crash. -/
def resultOf : Outcome → Option ConvResult
  | .json r => some r
  | .crash => none

/-- Kernel on which `Part.Shape.makeShapeFromMesh` raises (reconstruction
failure): all other behaviour benign. -/
def kShapeRaises : Kernel := { kBase with makeShapeFromMesh := fun _ _ => .error () }

/-- Kernel on which `harmonizeNormals` raises: all other behaviour benign. -/
def kHarmonizeRaises : Kernel := { kBase with harmonizeNormals := fun _ => .error () }

/-- Kernel whose export call reports an existing but empty (0-byte) output
file. -/
def kEmptyExport : Kernel := { kBase with exportStep := fun _ => .ok (some 0) }

/-- Kernel on which `Part.makeSolid` always raises (solid classification
failure): all other behaviour benign. -/
def kSolidRaises : Kernel := { kBase with makeSolid := fun _ => .error () }

/-- Kernel on which `Part.Shape.refine` raises, so the first merge-cascade tier
fails while the direct `removeSplitter(tolerance)` tier succeeds. -/
def kRefineRaises : Kernel := { kBase with refine := fun _ => .error () }

/-- Kernel for a job whose input path does not exist. -/
def kNoInput : Kernel := { kBase with inputExists := false }

/-- Scene-object table used by the resolver scenarios: object `"1"` carries
mesh data, `"2"` is a component referencing `"1"`, `"3"` is a component
referencing the component `"2"`, `"4"` is a component with a dangling
reference. -/
def dictW : List (Option String × SceneObject) :=
  [(some "1", SceneObject.meshData [(0, 0, 0), (1, 0, 0), (0, 1, 0)] [(0, 1, 2)]),
   (some "2", SceneObject.component (some "1")),
   (some "3", SceneObject.component (some "2")),
   (some "4", SceneObject.component (some "9"))]

/-- The compound-merge decision only writes merge bookkeeping fields: all
other result fields pass through untouched. -/
theorem compoundMergeDecision_res_fields (k : Kernel) (res : ConvResult) (tol : Rat)
    (total np : Nat) (final : Shape) (tr : List Ev) :
    ((compoundMergeDecision k res tol total np final tr).2.1).success = res.success ∧
    ((compoundMergeDecision k res tol total np final tr).2.1).stage = res.stage ∧
    ((compoundMergeDecision k res tol total np final tr).2.1).error = res.error ∧
    ((compoundMergeDecision k res tol total np final tr).2.1).is_solid = res.is_solid ∧
    ((compoundMergeDecision k res tol total np final tr).2.1).output_size = res.output_size ∧
    ((compoundMergeDecision k res tol total np final tr).2.1).mesh_info_before_idx =
      res.mesh_info_before_idx ∧
    ((compoundMergeDecision k res tol total np final tr).2.1).mesh_info_after_idx =
      res.mesh_info_after_idx ∧
    ((compoundMergeDecision k res tol total np final tr).2.1).mesh_info_before =
      res.mesh_info_before ∧
    ((compoundMergeDecision k res tol total np final tr).2.1).mesh_info_after =
      res.mesh_info_after := by
  unfold compoundMergeDecision
  split_ifs <;> exact ⟨rfl, rfl, rfl, rfl, rfl, rfl, rfl, rfl, rfl⟩

/-! ## Claim C6 -/

/-- C6: the merge cascade tries refine-then-merge, then direct merge, then
tolerance-less merge, then gives up with the original shape and `false`; in
particular, whenever the refine-then-merge tier fails and the direct
`removeSplitter(tolerance)` call succeeds, `merge_planar_faces` returns exactly
the direct-merge outcome with the merged flag `true`. -/
theorem C6_cascade_direct_merge (k : Kernel) (s m : Shape) (tol : Rat)
    (hfail : (k.refine s).bind (fun refined => k.removeSplitterTol refined tol) = .error ())
    (hdirect : k.removeSplitterTol s tol = .ok m) :
    merge_planar_faces k s tol = (m, true) := by
  unfold merge_planar_faces
  rw [hfail, hdirect]

/-- Witness for C6: on `kRefineRaises`, refining shape 5 raises, the direct
merge maps it to 1005, and the cascade returns exactly that with the flag
`true`. -/
theorem C6_witness :
    ((kRefineRaises.refine ⟨5⟩).bind
        (fun refined => kRefineRaises.removeSplitterTol refined 1) = .error () ∧
      kRefineRaises.removeSplitterTol ⟨5⟩ 1 = .ok ⟨1005⟩) ∧
    merge_planar_faces kRefineRaises ⟨5⟩ 1 = (⟨1005⟩, true) :=
  ⟨⟨rfl, rfl⟩, C6_cascade_direct_merge kRefineRaises ⟨5⟩ ⟨1005⟩ 1 rfl rfl⟩

/-! ## Claim C7 -/

/-- The behaviour C7 ascribes to a build instance whose object resolves to a
component: dereference once to a mesh yields that mesh's data; a dangling or
component-valued dereference target drops the instance; and a dropped instance
leaves the resolution of all other build items untouched. -/
def componentResolutionSpec (dict : List (Option String × SceneObject))
    (oid ref : Option String) : Prop :=
  (∀ v t, dict.lookup ref = some (SceneObject.meshData v t) →
      resolve_item dict oid = some ⟨v, t⟩) ∧
  (dict.lookup ref = none → resolve_item dict oid = none) ∧
  (∀ r2, dict.lookup ref = some (SceneObject.component r2) →
      resolve_item dict oid = none) ∧
  (resolve_item dict oid = none → ∀ pre post,
      resolveBuildItems dict (pre ++ oid :: post) =
        resolveBuildItems dict pre ++ resolveBuildItems dict post)

/-- C7: a build instance referencing a component resolves through exactly one
level of indirection: to the referenced mesh's data when the reference names a
mesh-typed table entry, and to nothing (dropped, parse continues) when the
reference is missing from the table or names another component. -/
theorem C7_component_single_deref (dict : List (Option String × SceneObject))
    (oid ref : Option String)
    (h : dict.lookup oid = some (SceneObject.component ref)) :
    componentResolutionSpec dict oid ref := by
  refine ⟨?_, ?_, ?_, ?_⟩
  · intro v t h2
    simp [resolve_item, h, h2]
  · intro h2
    simp [resolve_item, h, h2]
  · intro r2 h2
    simp [resolve_item, h, h2]
  · intro h0 pre post
    unfold resolveBuildItems
    rw [List.filterMap_append]
    congr 1
    simp [List.filterMap_cons, h0]

/-- Witness for C7: in `dictW`, object `"2"` is a component referencing the
mesh object `"1"`. -/
theorem C7_witness :
    dictW.lookup (some "2") = some (SceneObject.component (some "1")) ∧
    componentResolutionSpec dictW (some "2") (some "1") :=
  ⟨rfl, C7_component_single_deref dictW (some "2") (some "1") rfl⟩

/-! ## Claim C10 -/

/-- C10: the all-mesh-objects fallback fires exactly on empty build
resolution: with a build section whose items all fail to resolve just as with
no build section at all. -/
theorem C10_fallback_whenever_empty (dict : List (Option String × SceneObject))
    (items : List (Option String))
    (hall : resolveBuildItems dict items = []) :
    build_meshes dict (some items) = allMeshObjects dict ∧
    build_meshes dict none = allMeshObjects dict := by
  constructor
  · simp [build_meshes, hall]
  · simp [build_meshes]

/-- Witness for C10: in `dictW` the two build items `"3"` (component referring
to a component) and `"9"` (missing id) both fail, the build section is present
and non-empty, and the parse still yields the single mesh-typed object. -/
theorem C10_witness :
    resolveBuildItems dictW [some "3", some "9"] = [] ∧
    (build_meshes dictW (some [some "3", some "9"]) = allMeshObjects dictW ∧
      build_meshes dictW none = allMeshObjects dictW) :=
  ⟨rfl, C10_fallback_whenever_empty dictW [some "3", some "9"] rfl⟩

/-! ## Counterexamples to C1, C2, C4, C5 as stated -/

/-- Counterexample to C1 as stated: on `kShapeRaises` the (unguarded)
mesh-to-shape conversion raises during an ordinary STL job, and `convert`
terminates as a crash — no JSON document of any shape is emitted, and in
particular no `stage = "conversion"` failure record exists.  There is no
top-level exception handler in `convert`. -/
theorem C1_counterexample :
    convert kShapeRaises "in.stl" "out.step" 1 true false "stl" = (Outcome.crash, []) := by
  rfl

/-- Counterexample to C2 as stated: `harmonizeNormals` (step 7) is not
guarded by any `try`/`except`, so a kernel on which it raises makes
`repair_mesh` itself propagate the exception instead of skipping the step. -/
theorem C2_counterexample :
    repair_mesh kHarmonizeRaises mCube false = .error () := by
  rfl

/-- Counterexample to C4 as stated: `convert` checks only that the output path
exists after export, never that it is non-empty; with an export that produces
an existing 0-byte file the job reports `success = true` with
`output_size = 0`. -/
theorem C4_counterexample :
    (resultOf (convert kEmptyExport "in.stl" "out.step" 1 true false "stl").1).map
        ConvResult.success = some true ∧
    (resultOf (convert kEmptyExport "in.stl" "out.step" 1 true false "stl").1).map
        ConvResult.output_size = some (some 0) :=
  ⟨rfl, rfl⟩

/-- Counterexample to C5 as stated: the per-solid merge is additionally
conditioned on `Part.makeSolid` succeeding.  On `kSolidRaises` the single
12-facet mesh (well under 100000) fails solid classification, the job still
succeeds, and the trace contains no per-solid merge event — only the
compound-level one. -/
theorem C5_counterexample :
    load_meshes kSolidRaises "stl" = .ok [mCube] ∧ mCube.facets ≤ 100000 ∧
    (resultOf (convert kSolidRaises "in.stl" "out.step" 1 false false "stl").1).map
        ConvResult.success = some true ∧
    (convert kSolidRaises "in.stl" "out.step" 1 false false "stl").2 = [Ev.compoundMerge] :=
  ⟨rfl, by decide, rfl, rfl⟩

/-! ## Claim C1, amended -/

/-- Shape of every JSON failure report `convert` itself can emit: a non-empty
`error` string, and no `stage` tag at all (only the module-level FreeCAD
importing guard ever writes `stage`). -/
def failureResultWellFormed (k : Kernel) (ip op : String) (tol : Rat)
    (rep io : Bool) (fmt : String) : Prop :=
  ∀ r tr, convert k ip op tol rep io fmt = (.json r, tr) → r.success = false →
    (∃ e, r.error = some e ∧ 0 < e.length) ∧ r.stage = none

/-- Any failure JSON emitted by `convert` carries a non-empty error and no
stage tag (shared workhorse for the error-handling claims). -/
theorem convert_failure_error_shape (k : Kernel) (ip op : String) (tol : Rat)
    (rep io : Bool) (fmt : String) (r : ConvResult) (tr : List Ev)
    (h : convert k ip op tol rep io fmt = (.json r, tr)) (hfail : r.success = false) :
    (∃ e, r.error = some e ∧ 0 < e.length) ∧ r.stage = none := by
  rcases convert_json_cases k ip op tol rep io fmt r tr h with
    ⟨_, hr, _⟩ | ⟨_, e, _, hr, _⟩ | ⟨_, ms, hload, hcl⟩
  · subst hr
    exact ⟨⟨"Input file not found", rfl, by decide⟩, rfl⟩
  · subst hr
    refine ⟨⟨_, rfl, ?_⟩, rfl⟩
    have h15 : ("Failed to load ").length = 15 := rfl
    simp only [String.length_append, h15]
    omega
  · rcases convertLoaded_json_cases k (initRes ip op tol fmt) tol rep io fmt ms r tr hcl with
      ⟨_, hr, _⟩ | ⟨_, bs, ias, rs, ps, hproc, hcp⟩
    · subst hr
      refine ⟨⟨_, rfl, ?_⟩, rfl⟩
      have h19 : (" contains no facets").length = 19 := rfl
      simp only [String.length_append, h19]
      omega
    · rcases convertProcessed_json_cases k (resAfterProcess (initRes ip op tol fmt) bs ias rs)
          tol (totalFacets ms) io ps r tr hcp with
        ⟨_, hr, _⟩ | ⟨_, ss, hs, tr0, b, final, hb, ha, hca⟩
      · subst hr
        simp at hfail
      · rcases convertAssembled_json_cases k
            { resAfterProcess (initRes ip op tol fmt) bs ias rs with is_solid := some b }
            tol (totalFacets ms) ps.length final tr0 r tr hca with
          ⟨n, hexp, hr, _⟩ | ⟨hexp, hr, _⟩
        · subst hr
          simp at hfail
        · subst hr
          refine ⟨⟨"STEP export failed", rfl, by decide⟩, ?_⟩
          exact (compoundMergeDecision_res_fields k
            { resAfterProcess (initRes ip op tol fmt) bs ias rs with is_solid := some b }
            tol (totalFacets ms) ps.length final tr0).2.1.trans rfl

/-- C1 amended: the failure paths `convert` handles (missing input, load
failure, facet-free mesh, missing export artifact) all emit `success = false`
with a non-empty `error` string — but with no `stage` tag; unexpected internal
exceptions are *not* caught at the top level (see `C1_counterexample`: they
crash the process without any JSON). -/
theorem C1_amended_failure_shape (k : Kernel) (ip op : String) (tol : Rat)
    (rep io : Bool) (fmt : String) :
    failureResultWellFormed k ip op tol rep io fmt :=
  fun r tr h hfail => convert_failure_error_shape k ip op tol rep io fmt r tr h hfail

/-- Witness for C1 amended: a job whose input path is missing emits the
in-shape failure JSON. -/
theorem C1_witness :
    convert kNoInput "in.stl" "out.step" 1 true false "stl" =
      (.json { initRes "in.stl" "out.step" 1 "stl" with error := some "Input file not found" },
        []) ∧
    failureResultWellFormed kNoInput "in.stl" "out.step" 1 true false "stl" :=
  ⟨rfl, C1_amended_failure_shape kNoInput "in.stl" "out.step" 1 true false "stl"⟩

/-! ## Claim C2, amended -/

/-- The kernel operation `f` never raises (mesh-valued). -/
def totalMeshOp (f : Mesh → Except Unit Mesh) : Prop :=
  ∀ m, ∃ m2, f m = .ok m2

/-- The kernel predicate `f` never raises (Bool-valued). -/
def totalMeshQuery (f : Mesh → Except Unit Bool) : Prop :=
  ∀ m, ∃ b, f m = .ok b

/-- `repair_mesh` returns normally and its log ends with the always-logged
final harmonization entry — i.e. every step up to and including step 7 was
reached. -/
def repairCompletes (k : Kernel) (m : Mesh) (skip_expensive : Bool) : Prop :=
  ∃ m2 log, repair_mesh k m skip_expensive = .ok (m2, log ++ ["Harmonized normals"])

theorem step_dup_points_ok (k : Kernel) (hdp : totalMeshOp k.removeDuplicatedPoints)
    (m : Mesh) (rs : List String) :
    ∃ m2 d, step_dup_points k (m, rs) = .ok (m2, rs ++ d) := by
  obtain ⟨m2, h2⟩ := hdp m
  by_cases hlt : m2.pts < m.pts
  · exact ⟨m2, [s!"Removed {m.pts - m2.pts} duplicate points"],
      by simp [step_dup_points, h2, hlt]⟩
  · exact ⟨m2, [], by simp [step_dup_points, h2, hlt]⟩

theorem step_dup_facets_ok (k : Kernel) (hdf : totalMeshOp k.removeDuplicatedFacets)
    (m : Mesh) (rs : List String) :
    ∃ m2 d, step_dup_facets k (m, rs) = .ok (m2, rs ++ d) := by
  obtain ⟨m2, h2⟩ := hdf m
  by_cases hlt : m2.facets < m.facets
  · exact ⟨m2, [s!"Removed {m.facets - m2.facets} duplicate facets"],
      by simp [step_dup_facets, h2, hlt]⟩
  · exact ⟨m2, [], by simp [step_dup_facets, h2, hlt]⟩

theorem step_self_intersections_ok (k : Kernel)
    (hsi : totalMeshQuery k.hasSelfIntersections)
    (hfx : totalMeshOp k.fixSelfIntersections) (skip : Bool) (m : Mesh) (rs : List String) :
    ∃ m2 d, step_self_intersections k skip (m, rs) = .ok (m2, rs ++ d) := by
  by_cases hskip : skip = true
  · exact ⟨m, [], by simp [step_self_intersections, hskip]⟩
  · obtain ⟨b, hb⟩ := hsi m
    cases b with
    | false => exact ⟨m, [], by simp [step_self_intersections, hskip, hb]⟩
    | true =>
      obtain ⟨m2, h2⟩ := hfx m
      obtain ⟨b2, hb2⟩ := hsi m2
      cases b2 with
      | false =>
        exact ⟨m2, ["Fixed self-intersections"],
          by simp [step_self_intersections, hskip, hb, h2, hb2]⟩
      | true => exact ⟨m2, [], by simp [step_self_intersections, hskip, hb, h2, hb2]⟩

theorem step_degenerations_ok (k : Kernel) (m : Mesh) (rs : List String) :
    ∃ m2 d, step_degenerations k (m, rs) = .ok (m2, rs ++ d) := by
  cases h0 : k.fixDegenerations0 m with
  | ok m2 => exact ⟨m2, ["Fixed degenerations"], by simp [step_degenerations, h0]⟩
  | error e =>
    cases h1 : k.fixDegenerationsDefault m with
    | ok m2 => exact ⟨m2, ["Fixed degenerations"], by simp [step_degenerations, h0, h1]⟩
    | error e2 => exact ⟨m, [], by simp [step_degenerations, h0, h1]⟩

theorem step_non_manifolds_ok (k : Kernel) (hnm : totalMeshQuery k.hasNonManifolds)
    (skip : Bool) (m : Mesh) (rs : List String) :
    ∃ m2 d, step_non_manifolds k skip (m, rs) = .ok (m2, rs ++ d) := by
  by_cases hskip : skip = true
  · exact ⟨m, [], by simp [step_non_manifolds, hskip]⟩
  · obtain ⟨b, hb⟩ := hnm m
    cases b with
    | false => exact ⟨m, [], by simp [step_non_manifolds, hskip, hb]⟩
    | true =>
      cases hrm : k.removeNonManifolds m with
      | error e => exact ⟨m, [], by simp [step_non_manifolds, hskip, hb, hrm]⟩
      | ok m2 =>
        obtain ⟨b2, hb2⟩ := hnm m2
        cases b2 with
        | false =>
          exact ⟨m2, ["Removed non-manifolds"],
            by simp [step_non_manifolds, hskip, hb, hrm, hb2]⟩
        | true => exact ⟨m2, [], by simp [step_non_manifolds, hskip, hb, hrm, hb2]⟩

theorem step_fill_holes_ok (k : Kernel) (m : Mesh) (rs : List String) :
    ∃ m2 d, step_fill_holes k (m, rs) = .ok (m2, rs ++ d) := by
  cases h0 : k.fillupHoles1000 m with
  | ok m2 => exact ⟨m2, ["Filled holes"], by simp [step_fill_holes, h0]⟩
  | error e =>
    cases h1 : k.fillupHolesDefault m with
    | ok m2 => exact ⟨m2, ["Filled holes"], by simp [step_fill_holes, h0, h1]⟩
    | error e2 => exact ⟨m, [], by simp [step_fill_holes, h0, h1]⟩

theorem step_harmonize_ok (k : Kernel) (hhn : totalMeshOp k.harmonizeNormals)
    (m : Mesh) (rs : List String) :
    ∃ m2, step_harmonize k (m, rs) = .ok (m2, rs ++ ["Harmonized normals"]) := by
  obtain ⟨m2, h2⟩ := hhn m
  exact ⟨m2, by simp [step_harmonize, h2]⟩

/-- C2 amended: only the degenerate-fix, non-manifold-removal and hole-fill
blocks are guarded; duplicate-point removal, duplicate-facet removal, the
self-intersection check/fix, the non-manifold detection check and the final
normal harmonization are unguarded, and an exception there propagates out of
`repair_mesh` (see `C2_counterexample`).  When the unguarded operations do not
raise, `repair_mesh` always returns normally — arbitrary failures of the
guarded steps are skipped silently and every later step still runs, through to
the final always-logged harmonization. -/
theorem C2_amended_guarded_steps (k : Kernel) (m : Mesh) (skip_expensive : Bool)
    (hdp : totalMeshOp k.removeDuplicatedPoints)
    (hdf : totalMeshOp k.removeDuplicatedFacets)
    (hsi : totalMeshQuery k.hasSelfIntersections)
    (hfx : totalMeshOp k.fixSelfIntersections)
    (hnm : totalMeshQuery k.hasNonManifolds)
    (hhn : totalMeshOp k.harmonizeNormals) :
    repairCompletes k m skip_expensive := by
  obtain ⟨m1, d1, e1⟩ := step_dup_points_ok k hdp m []
  obtain ⟨m2, d2, e2⟩ := step_dup_facets_ok k hdf m1 ([] ++ d1)
  obtain ⟨m3, d3, e3⟩ := step_self_intersections_ok k hsi hfx skip_expensive m2 ([] ++ d1 ++ d2)
  obtain ⟨m4, d4, e4⟩ := step_degenerations_ok k m3 ([] ++ d1 ++ d2 ++ d3)
  obtain ⟨m5, d5, e5⟩ := step_non_manifolds_ok k hnm skip_expensive m4 ([] ++ d1 ++ d2 ++ d3 ++ d4)
  obtain ⟨m6, d6, e6⟩ := step_fill_holes_ok k m5 ([] ++ d1 ++ d2 ++ d3 ++ d4 ++ d5)
  obtain ⟨m7, e7⟩ := step_harmonize_ok k hhn m6 ([] ++ d1 ++ d2 ++ d3 ++ d4 ++ d5 ++ d6)
  refine ⟨m7, [] ++ d1 ++ d2 ++ d3 ++ d4 ++ d5 ++ d6, ?_⟩
  unfold repair_mesh
  rw [e1]
  simp only [Except.bind]
  rw [e2]
  simp only [Except.bind]
  rw [e3]
  simp only [Except.bind]
  rw [e4]
  simp only [Except.bind]
  rw [e5]
  simp only [Except.bind]
  rw [e6]
  simp only [Except.bind]
  rw [e7]

/-- Kernel on which every guarded repair operation raises and the non-manifold
check reports `true` (so the guarded removal is actually attempted), while all
unguarded operations succeed. -/
def kGuardedRaise : Kernel :=
  { kBase with
      fixDegenerations0 := fun _ => .error ()
      fixDegenerationsDefault := fun _ => .error ()
      removeNonManifolds := fun _ => .error ()
      fillupHoles1000 := fun _ => .error ()
      fillupHolesDefault := fun _ => .error ()
      hasNonManifolds := fun _ => .ok true }

/-- Witness for C2 amended: on `kGuardedRaise` all guarded steps fail yet
`repair_mesh` completes, its log ending with the harmonization entry. -/
theorem C2_witness :
    totalMeshOp kGuardedRaise.harmonizeNormals ∧
    repairCompletes kGuardedRaise mCube false :=
  ⟨fun m => ⟨m, rfl⟩,
   C2_amended_guarded_steps kGuardedRaise mCube false
     (fun m => ⟨m, rfl⟩) (fun m => ⟨m, rfl⟩) (fun _ => ⟨false, rfl⟩)
     (fun m => ⟨m, rfl⟩) (fun _ => ⟨true, rfl⟩) (fun m => ⟨m, rfl⟩)⟩

/-! ## Claim C3 -/

theorem lookup_mem_assoc {β : Type} (a : Nat) (b : β) :
    ∀ l : List (Nat × β), l.lookup a = some b → (a, b) ∈ l := by
  intro l
  induction l with
  | nil => intro h; simp [List.lookup] at h
  | cons p rest ih =>
    obtain ⟨k0, v0⟩ := p
    intro h
    simp only [List.lookup] at h
    cases hak : a == k0 with
    | true =>
      rw [hak] at h
      simp only [Option.some.injEq] at h
      subst h
      have hk : a = k0 := by simpa using hak
      subst hk
      exact List.mem_cons_self _ _
    | false =>
      rw [hak] at h
      exact List.mem_cons.mpr (Or.inr (ih h))

theorem get_mesh_info_presence (k : Kernel) (m : Mesh) (skip : Bool) (info : MeshInfo)
    (h : get_mesh_info k m skip = .ok info) :
    info.has_non_manifolds.isSome = !skip ∧ info.has_self_intersections.isSome = !skip := by
  unfold get_mesh_info at h
  split at h
  · simp at h
  · split at h
    · simp at h
    · split at h
      · simp at h
      · split at h
        · simp only [Except.ok.injEq] at h
          subst h
          simp_all
        · split at h
          · simp at h
          · split at h
            · simp at h
            · simp only [Except.ok.injEq] at h
              subst h
              simp_all

theorem processMeshes_presence (k : Kernel) (skip rep : Bool) (ms : List Mesh) :
    ∀ (i : Nat) (bs ias : List (Nat × MeshInfo)) (rs : List String) (ps : List Mesh),
      processMeshes k skip rep i ms = .ok (bs, ias, rs, ps) →
      (∀ p ∈ bs, p.2.has_non_manifolds.isSome = !skip ∧
          p.2.has_self_intersections.isSome = !skip) ∧
      (∀ p ∈ ias, p.2.has_non_manifolds.isSome = !skip ∧
          p.2.has_self_intersections.isSome = !skip) := by
  induction ms with
  | nil =>
    intro i bs ias rs ps h
    simp only [processMeshes, Except.ok.injEq, Prod.mk.injEq] at h
    obtain ⟨hbs, hias, _, _⟩ := h
    subst hbs
    subst hias
    simp
  | cons m rest ih =>
    intro i bs ias rs ps h
    unfold processMeshes at h
    split at h
    · simp at h
    · rename_i infoB hinfoB
      have hB := get_mesh_info_presence k m skip infoB hinfoB
      by_cases hrep : rep = true
      · rw [if_pos hrep] at h
        split at h
        · simp at h
        · rename_i m2 reps hrepair
          split at h
          · simp at h
          · rename_i infoA hinfoA
            have hA := get_mesh_info_presence k m2 skip infoA hinfoA
            split at h
            · simp at h
            · rename_i bs2 ias2 rs2 ps2 hrec
              simp only [Except.ok.injEq, Prod.mk.injEq] at h
              obtain ⟨hbs, hias, _, _⟩ := h
              subst hbs
              subst hias
              have hIH := ih (i + 1) bs2 ias2 rs2 ps2 hrec
              constructor
              · intro p hp
                rcases List.mem_cons.mp hp with hp0 | hp1
                · subst hp0; exact hB
                · exact hIH.1 p hp1
              · intro p hp
                rcases List.mem_cons.mp hp with hp0 | hp1
                · subst hp0; exact hA
                · exact hIH.2 p hp1
      · rw [if_neg hrep] at h
        split at h
        · simp at h
        · rename_i bs2 ias2 rs2 ps2 hrec
          simp only [Except.ok.injEq, Prod.mk.injEq] at h
          obtain ⟨hbs, hias, _, _⟩ := h
          subst hbs
          subst hias
          have hIH := ih (i + 1) bs2 ias2 rs2 ps2 hrec
          constructor
          · intro p hp
            rcases List.mem_cons.mp hp with hp0 | hp1
            · subst hp0; exact hB
            · exact hIH.1 p hp1
          · exact hIH.2

/-- The diagnostics-key presence invariant over a result: every per-mesh
record (indexed keys and the legacy index-0 aliases) carries the two
expensive-check keys exactly when `present` is `true`. -/
def diagPresence (r : ConvResult) (present : Bool) : Prop :=
  (∀ p ∈ r.mesh_info_before_idx,
      p.2.has_non_manifolds.isSome = present ∧
      p.2.has_self_intersections.isSome = present) ∧
  (∀ p ∈ r.mesh_info_after_idx,
      p.2.has_non_manifolds.isSome = present ∧
      p.2.has_self_intersections.isSome = present) ∧
  (∀ info, r.mesh_info_before = some info →
      info.has_non_manifolds.isSome = present ∧
      info.has_self_intersections.isSome = present) ∧
  (∀ info, r.mesh_info_after = some info →
      info.has_non_manifolds.isSome = present ∧
      info.has_self_intersections.isSome = present)

theorem diagPresence_of_fields (r : ConvResult) (present : Bool)
    (bs ias : List (Nat × MeshInfo))
    (hbi : r.mesh_info_before_idx = bs) (hai : r.mesh_info_after_idx = ias)
    (hbl : r.mesh_info_before = bs.lookup 0) (hal : r.mesh_info_after = ias.lookup 0)
    (hbs : ∀ p ∈ bs, p.2.has_non_manifolds.isSome = present ∧
        p.2.has_self_intersections.isSome = present)
    (hias : ∀ p ∈ ias, p.2.has_non_manifolds.isSome = present ∧
        p.2.has_self_intersections.isSome = present) :
    diagPresence r present := by
  refine ⟨by rw [hbi]; exact hbs, by rw [hai]; exact hias, ?_, ?_⟩
  · intro info hinfo
    rw [hbl] at hinfo
    exact hbs _ (lookup_mem_assoc 0 info bs hinfo)
  · intro info hinfo
    rw [hal] at hinfo
    exact hias _ (lookup_mem_assoc 0 info ias hinfo)

theorem diagPresence_empty (r : ConvResult) (present : Bool)
    (hbi : r.mesh_info_before_idx = []) (hai : r.mesh_info_after_idx = [])
    (hbl : r.mesh_info_before = none) (hal : r.mesh_info_after = none) :
    diagPresence r present := by
  refine ⟨?_, ?_, ?_, ?_⟩
  · rw [hbi]; simp
  · rw [hai]; simp
  · intro info hinfo; rw [hbl] at hinfo; cases hinfo
  · intro info hinfo; rw [hal] at hinfo; cases hinfo

/-- The diagnostics-presence property of a whole conversion run. -/
def convertDiagPresence (k : Kernel) (ip op : String) (tol : Rat) (rep io : Bool)
    (fmt : String) (present : Bool) : Prop :=
  ∀ r tr, convert k ip op tol rep io fmt = (.json r, tr) → diagPresence r present

/-- C3: with `skip_expensive = (total loaded facet count > 50000)` computed
once per job, every per-mesh diagnostics record of the emitted result carries
`has_non_manifolds`/`has_self_intersections` exactly when `skip_expensive` is
false — when it is true the keys are entirely absent, never present as
`false`. -/
theorem C3_skip_expensive_presence (k : Kernel) (ip op : String) (tol : Rat)
    (rep io : Bool) (fmt : String) (ms : List Mesh)
    (hload : load_meshes k fmt = .ok ms) :
    convertDiagPresence k ip op tol rep io fmt (!skipExpensive ms) := by
  intro r tr h
  rcases convert_json_cases k ip op tol rep io fmt r tr h with
    ⟨_, hr, _⟩ | ⟨_, e, hl, hr, _⟩ | ⟨_, ms2, hl, hcl⟩
  · subst hr
    exact diagPresence_empty _ _ rfl rfl rfl rfl
  · rw [hload] at hl
    cases hl
  · rw [hload] at hl
    injection hl with hl2
    subst hl2
    rcases convertLoaded_json_cases k (initRes ip op tol fmt) tol rep io fmt ms r tr hcl with
      ⟨_, hr, _⟩ | ⟨_, bs, ias, rs, ps, hproc, hcp⟩
    · subst hr
      exact diagPresence_empty _ _ rfl rfl rfl rfl
    · have hpres := processMeshes_presence k (skipExpensive ms) rep ms 0 bs ias rs ps hproc
      rcases convertProcessed_json_cases k (resAfterProcess (initRes ip op tol fmt) bs ias rs)
          tol (totalFacets ms) io ps r tr hcp with
        ⟨_, hr, _⟩ | ⟨_, ss, hs, tr0, b, final, hb, ha, hca⟩
      · subst hr
        exact diagPresence_of_fields _ _ bs ias rfl rfl rfl rfl hpres.1 hpres.2
      · have hfields := compoundMergeDecision_res_fields k
          { resAfterProcess (initRes ip op tol fmt) bs ias rs with is_solid := some b }
          tol (totalFacets ms) ps.length final tr0
        rcases convertAssembled_json_cases k
            { resAfterProcess (initRes ip op tol fmt) bs ias rs with is_solid := some b }
            tol (totalFacets ms) ps.length final tr0 r tr hca with
          ⟨n, hexp, hr, _⟩ | ⟨hexp, hr, _⟩
        · subst hr
          exact diagPresence_of_fields _ _ bs ias
            (hfields.2.2.2.2.2.1.trans rfl) (hfields.2.2.2.2.2.2.1.trans rfl)
            (hfields.2.2.2.2.2.2.2.1.trans rfl) (hfields.2.2.2.2.2.2.2.2.trans rfl)
            hpres.1 hpres.2
        · subst hr
          exact diagPresence_of_fields _ _ bs ias
            (hfields.2.2.2.2.2.1.trans rfl) (hfields.2.2.2.2.2.2.1.trans rfl)
            (hfields.2.2.2.2.2.2.2.1.trans rfl) (hfields.2.2.2.2.2.2.2.2.trans rfl)
            hpres.1 hpres.2

/-- Witness for C3: the benign small-mesh STL job (12 facets, well under
50000) carries both expensive-check keys in every record. -/
theorem C3_witness :
    load_meshes kBase "stl" = .ok [mCube] ∧
    convertDiagPresence kBase "in.stl" "out.step" 1 true false "stl"
      (!skipExpensive [mCube]) :=
  ⟨rfl, C3_skip_expensive_presence kBase "in.stl" "out.step" 1 true false "stl" [mCube] rfl⟩

/-! ## Claim C4, amended -/

/-- C4 amended to what the code guarantees: on success the export oracle
reported an existing artifact whose byte size — possibly zero, see
`C4_counterexample` — is echoed as `output_size`; on failure a non-empty error
string is present. -/
def successImpliesArtifact (k : Kernel) (ip op : String) (tol : Rat) (rep : Bool)
    (fmt : String) : Prop :=
  ∀ r tr, convert k ip op tol rep false fmt = (.json r, tr) →
    (r.success = true → ∃ s n, k.exportStep s = .ok (some n) ∧ r.output_size = some n) ∧
    (r.success = false → ∃ e, r.error = some e ∧ 0 < e.length)

/-- C4 amended: for every conversion job (`info_only = false`, as `main`
always passes), `success = true` implies the output file exists with its size
echoed in `output_size` (but a 0-byte artifact still counts as success), and
`success = false` implies a non-empty `error` string. -/
theorem C4_amended_success_output (k : Kernel) (ip op : String) (tol : Rat)
    (rep : Bool) (fmt : String) :
    successImpliesArtifact k ip op tol rep fmt := by
  intro r tr h
  constructor
  · intro hsucc
    rcases convert_json_cases k ip op tol rep false fmt r tr h with
      ⟨_, hr, _⟩ | ⟨_, e, hl, hr, _⟩ | ⟨_, ms, hl, hcl⟩
    · subst hr; exact absurd hsucc (by simp [initRes])
    · subst hr; exact absurd hsucc (by simp [initRes])
    · rcases convertLoaded_json_cases k (initRes ip op tol fmt) tol rep false fmt ms r tr
          hcl with
        ⟨_, hr, _⟩ | ⟨_, bs, ias, rs, ps, hproc, hcp⟩
      · subst hr; exact absurd hsucc (by simp [initRes])
      · rcases convertProcessed_json_cases k (resAfterProcess (initRes ip op tol fmt) bs ias rs)
            tol (totalFacets ms) false ps r tr hcp with
          ⟨hio, _, _⟩ | ⟨_, ss, hs, tr0, b, final, hb, ha, hca⟩
        · exact absurd hio (by decide)
        · rcases convertAssembled_json_cases k
              { resAfterProcess (initRes ip op tol fmt) bs ias rs with is_solid := some b }
              tol (totalFacets ms) ps.length final tr0 r tr hca with
            ⟨n, hexp, hr, _⟩ | ⟨hexp, hr, _⟩
          · subst hr
            exact ⟨_, n, hexp, rfl⟩
          · subst hr
            have hs2 := (compoundMergeDecision_res_fields k
              { resAfterProcess (initRes ip op tol fmt) bs ias rs with is_solid := some b }
              tol (totalFacets ms) ps.length final tr0).1
            exact absurd (hs2.symm.trans hsucc) (by simp [resAfterProcess, initRes])
  · intro hfail
    exact (convert_failure_error_shape k ip op tol rep false fmt r tr h hfail).1

/-- Witness for C4 amended, applied to the benign small STL job. -/
theorem C4_witness :
    successImpliesArtifact kBase "in.stl" "out.step" 1 true "stl" :=
  C4_amended_success_output kBase "in.stl" "out.step" 1 true "stl"

/-! ## Claim C9 -/

/-- With more than one processed mesh, the compound-merge decision records
both flags as `true` and emits the multi-object debug event, touching
nothing else. -/
theorem compoundMergeDecision_multi (k : Kernel) (res : ConvResult) (tol : Rat)
    (total np : Nat) (final : Shape) (tr : List Ev) (h : 1 < np) :
    ((compoundMergeDecision k res tol total np final tr).2.1).merged_planar_faces =
      some true ∧
    ((compoundMergeDecision k res tol total np final tr).2.1).merged_per_solid =
      some true ∧
    (compoundMergeDecision k res tol total np final tr).2.2 = tr ++ [Ev.multiSkip] := by
  unfold compoundMergeDecision
  rw [if_neg (fun hc => absurd hc.1 (by omega) : ¬(np = 1 ∧ total ≤ 100000)), if_pos h]
  exact ⟨rfl, rfl, rfl⟩

/-- The C9 property of a whole run: the emitted result (whatever the export
outcome) reports `merged_planar_faces = true` and `merged_per_solid = true`. -/
def multiMeshMergeFlags (k : Kernel) (ip op : String) (tol : Rat) (rep : Bool)
    (fmt : String) : Prop :=
  ∀ r tr, convert k ip op tol rep false fmt = (.json r, tr) →
    r.merged_planar_faces = some true ∧ r.merged_per_solid = some true

/-- C9: a job that processes more than one mesh always reports
`merged_planar_faces = true` and `merged_per_solid = true` in its emitted
result, unconditionally — the branch at lines 560-563 never looks at whether
any per-solid merge was attempted or succeeded (e.g. every mesh may have
failed solid classification). -/
theorem C9_multi_mesh_merge_flags (k : Kernel) (ip op : String) (tol : Rat)
    (rep : Bool) (fmt : String) (ms : List Mesh) (bs ias : List (Nat × MeshInfo))
    (rs : List String) (ps : List Mesh)
    (hex : k.inputExists = true) (hload : load_meshes k fmt = .ok ms)
    (hne : meshesEmpty ms = false)
    (hproc : processMeshes k (skipExpensive ms) rep 0 ms = .ok (bs, ias, rs, ps))
    (hmulti : 1 < ps.length) :
    multiMeshMergeFlags k ip op tol rep fmt := by
  intro r tr h
  rw [convert_main_path k ip op tol rep false fmt ms bs ias rs ps hex hload hne hproc] at h
  rcases convertProcessed_json_cases k (resAfterProcess (initRes ip op tol fmt) bs ias rs)
      tol (totalFacets ms) false ps r tr h with
    ⟨hio, _, _⟩ | ⟨_, ss, hs, tr0, b, final, hb, ha, hca⟩
  · exact absurd hio (by decide)
  · have hm := compoundMergeDecision_multi k
      { resAfterProcess (initRes ip op tol fmt) bs ias rs with is_solid := some b }
      tol (totalFacets ms) ps.length final tr0 hmulti
    rcases convertAssembled_json_cases k
        { resAfterProcess (initRes ip op tol fmt) bs ias rs with is_solid := some b }
        tol (totalFacets ms) ps.length final tr0 r tr hca with
      ⟨n, hexp, hr, _⟩ | ⟨hexp, hr, _⟩
    · subst hr
      exact ⟨hm.1, hm.2.1⟩
    · subst hr
      exact ⟨hm.1, hm.2.1⟩

/-- The diagnostics record that `kBase` produces for `mCube`/`mCube2`. -/
def infoCube : MeshInfo :=
  { points := 8, facets := 12, edges := 18, is_solid := true, volume := some 1, area := 6,
    has_non_manifolds := some false, has_self_intersections := some false }

/-- Witness for C9: a two-mesh 3MF job on the benign kernel (no repair, so the
processed meshes are the loaded ones). -/
theorem C9_witness :
    processMeshes kBase (skipExpensive [mCube, mCube2]) false 0 [mCube, mCube2] =
      .ok ([(0, infoCube), (1, infoCube)], [], [], [mCube, mCube2]) ∧
    multiMeshMergeFlags kBase "in.3mf" "out.step" 1 false "3mf" :=
  ⟨rfl,
   C9_multi_mesh_merge_flags kBase "in.3mf" "out.step" 1 false "3mf" [mCube, mCube2]
     [(0, infoCube), (1, infoCube)] [] [] [mCube, mCube2] rfl rfl rfl rfl (by decide)⟩

/-! ## Claim C8 -/

/-- Mixed-assembly property of a whole run: the emitted result reports
`is_solid = false`. -/
def mixedReportsNotSolid (k : Kernel) (ip op : String) (tol : Rat) (rep : Bool)
    (fmt : String) : Prop :=
  ∀ r tr, convert k ip op tol rep false fmt = (.json r, tr) → r.is_solid = some false

/-- C8: a solid-classification failure (`makeSolid` raising) on one mesh never
aborts the job — the unconverted shape is kept as a shell and the remaining
meshes are processed exactly as before; and when the collected results mix
solids and shells, the final entity is a compound of all objects (solids
first, shells after, regardless of kind) and the emitted result reports
`is_solid = false`. -/
theorem C8_classification_failure_degrades
    (k : Kernel) (ip op : String) (tol : Rat) (rep : Bool) (fmt : String)
    (i : Nat) (m : Mesh) (rest : List Mesh) (sh : Shape)
    (ss0 hs0 : List Shape) (tr0 : List Ev)
    (ms : List Mesh) (bs ias : List (Nat × MeshInfo)) (rs : List String) (ps : List Mesh)
    (ss hs : List Shape) (tr1 : List Ev)
    (hsh : k.makeShapeFromMesh m (tol * 5) = .ok sh)
    (hsol : k.makeSolid sh = .error ())
    (hrest : buildShapes k tol (i + 1) rest = .ok (ss0, hs0, tr0))
    (hex : k.inputExists = true) (hload : load_meshes k fmt = .ok ms)
    (hne : meshesEmpty ms = false)
    (hproc : processMeshes k (skipExpensive ms) rep 0 ms = .ok (bs, ias, rs, ps))
    (hbuild : buildShapes k tol 0 ps = .ok (ss, hs, tr1))
    (hssne : ss ≠ []) (hhsne : hs ≠ []) :
    buildShapes k tol i (m :: rest) = .ok (ss0, sh :: hs0, tr0) ∧
    assemble k ss hs = (k.makeCompound (ss ++ hs)).map (fun c => (false, c)) ∧
    mixedReportsNotSolid k ip op tol rep fmt := by
  have hpart1 : buildShapes k tol i (m :: rest) = .ok (ss0, sh :: hs0, tr0) := by
    simp [buildShapes, hsh, hsol, hrest]
  have hpart2 : assemble k ss hs = (k.makeCompound (ss ++ hs)).map (fun c => (false, c)) := by
    obtain ⟨a, ss2, rfl⟩ := List.exists_cons_of_ne_nil hssne
    obtain ⟨b2, hs2, rfl⟩ := List.exists_cons_of_ne_nil hhsne
    cases ss2 with
    | nil => simp [assemble]
    | cons a2 ss3 => simp [assemble]
  refine ⟨hpart1, hpart2, ?_⟩
  intro r tr h
  rw [convert_main_path k ip op tol rep false fmt ms bs ias rs ps hex hload hne hproc] at h
  rcases convertProcessed_json_cases k (resAfterProcess (initRes ip op tol fmt) bs ias rs)
      tol (totalFacets ms) false ps r tr h with
    ⟨hio, _, _⟩ | ⟨_, ss9, hs9, tr9, b, final, hb, ha, hca⟩
  · exact absurd hio (by decide)
  · rw [hbuild] at hb
    simp only [Except.ok.injEq, Prod.mk.injEq] at hb
    obtain ⟨h1, h2, h3⟩ := hb
    subst h1
    subst h2
    rw [hpart2] at ha
    cases hcomp : k.makeCompound (ss ++ hs) with
    | error e =>
      rw [hcomp] at ha
      simp [Except.map] at ha
    | ok c =>
      rw [hcomp] at ha
      simp only [Except.map, Except.ok.injEq, Prod.mk.injEq] at ha
      obtain ⟨hbf, _⟩ := ha
      subst hbf
      have hfields := (compoundMergeDecision_res_fields k
        { resAfterProcess (initRes ip op tol fmt) bs ias rs with is_solid := some false }
        tol (totalFacets ms) ps.length final tr9).2.2.2.1
      rcases convertAssembled_json_cases k
          { resAfterProcess (initRes ip op tol fmt) bs ias rs with is_solid := some false }
          tol (totalFacets ms) ps.length final tr9 r tr hca with
        ⟨n, hexp, hr, _⟩ | ⟨hexp, hr, _⟩
      · subst hr
        exact hfields.trans rfl
      · subst hr
        exact hfields.trans rfl

/-- Kernel on which solid classification fails exactly for the shape produced
from `mCube2` (shape id 2), succeeding elsewhere. -/
def kMixed : Kernel :=
  { kBase with makeSolid := fun s => if s.sid = 2 then .error () else .ok s }

/-- Witness for C8: a two-mesh 3MF job on `kMixed` — the first mesh becomes a
(merged) solid, the second degrades to a shell; the job still emits a result
with `is_solid = false`. -/
theorem C8_witness :
    kMixed.makeSolid ⟨2⟩ = .error () ∧
    buildShapes kMixed 1 0 [mCube, mCube2] =
      .ok ([⟨1002⟩], [⟨2⟩], [Ev.perSolidMerge 0]) ∧
    (buildShapes kMixed 1 1 [mCube2] = .ok ([], ⟨2⟩ :: [], []) ∧
      assemble kMixed [⟨1002⟩] [⟨2⟩] =
        (kMixed.makeCompound ([⟨1002⟩] ++ [⟨2⟩])).map (fun c => (false, c)) ∧
      mixedReportsNotSolid kMixed "in.3mf" "out.step" 1 false "3mf") :=
  ⟨rfl, rfl,
   C8_classification_failure_degrades kMixed "in.3mf" "out.step" 1 false "3mf"
     1 mCube2 [] ⟨2⟩ [] [] [] [mCube, mCube2] [(0, infoCube), (1, infoCube)] [] []
     [mCube, mCube2] [⟨1002⟩] [⟨2⟩] [Ev.perSolidMerge 0]
     rfl rfl rfl rfl rfl rfl rfl rfl (by decide) (by decide)⟩

/-! ## Claim C5, amended -/

/-- The condition under which the script actually reaches the per-solid merge
for a mesh (lines 498-512): mesh-to-shape conversion succeeds, solid
classification succeeds, and the mesh has at most 100000 facets. -/
def perSolidCond (k : Kernel) (tol : Rat) (m : Mesh) : Prop :=
  ∃ sh sol, k.makeShapeFromMesh m (tol * 5) = .ok sh ∧
    k.makeSolid sh = .ok sol ∧ m.facets ≤ 100000

theorem head_not_in_tail (i0 len : Nat) (tr2 : List Ev)
    (hihA : ∀ e ∈ tr2, ∃ n, e = Ev.perSolidMerge n ∧ i0 + 1 ≤ n ∧ n < i0 + 1 + len) :
    Ev.perSolidMerge i0 ∉ tr2 := by
  intro hmem
  obtain ⟨n, hn1, hn2, _⟩ := hihA _ hmem
  have : i0 = n := by simpa using hn1
  omega

/-- The per-solid merge event for 0-based index `i0 + j` appears in the trace
of `buildShapes` starting at index `i0` exactly when `perSolidCond` holds of
the `j`-th mesh; and the trace holds nothing but per-solid merge events with
indices in range. -/
theorem buildShapes_trace (k : Kernel) (tol : Rat) (ms : List Mesh) :
    ∀ (i0 : Nat) (ss hs : List Shape) (tr : List Ev),
      buildShapes k tol i0 ms = .ok (ss, hs, tr) →
      (∀ e ∈ tr, ∃ n, e = Ev.perSolidMerge n ∧ i0 ≤ n ∧ n < i0 + ms.length) ∧
      (∀ j (hj : j < ms.length),
        (Ev.perSolidMerge (i0 + j) ∈ tr ↔ perSolidCond k tol (ms.get ⟨j, hj⟩))) := by
  induction ms with
  | nil =>
    intro i0 ss hs tr h
    simp only [buildShapes, Except.ok.injEq, Prod.mk.injEq] at h
    obtain ⟨_, _, htr⟩ := h
    subst htr
    exact ⟨by simp, by intro j hj; exact absurd hj (by simp)⟩
  | cons m rest ih =>
    intro i0 ss hs tr h
    unfold buildShapes at h
    split at h
    · simp at h
    · rename_i shape hshape
      split at h
      · rename_i solid hsolid
        split at h
        · simp at h
        · rename_i ss2 hs2 tr2 hrec
          have hih := ih (i0 + 1) ss2 hs2 tr2 hrec
          by_cases hf : m.facets ≤ 100000
          · rw [if_pos hf] at h
            simp only [Except.ok.injEq, Prod.mk.injEq] at h
            obtain ⟨_, _, htr⟩ := h
            subst htr
            constructor
            · intro e he
              rcases List.mem_cons.mp he with he0 | he1
              · exact ⟨i0, he0, Nat.le_refl i0, by simp only [List.length_cons]; omega⟩
              · obtain ⟨n, hn1, hn2, hn3⟩ := hih.1 e he1
                exact ⟨n, hn1, by omega, by simp only [List.length_cons]; omega⟩
            · intro j hj
              cases j with
              | zero =>
                constructor
                · intro _
                  exact ⟨shape, solid, hshape, hsolid, hf⟩
                · intro _
                  exact List.mem_cons.mpr (Or.inl (by rw [Nat.add_zero]))
              | succ j2 =>
                have hj2 : j2 < rest.length := by
                  simp only [List.length_cons] at hj
                  omega
                have hiff := hih.2 j2 hj2
                rw [show i0 + 1 + j2 = i0 + (j2 + 1) from by omega] at hiff
                constructor
                · intro hmem
                  rcases List.mem_cons.mp hmem with he0 | he1
                  · exfalso
                    have : i0 + (j2 + 1) = i0 := by simpa using he0
                    omega
                  · exact hiff.mp he1
                · intro hcond
                  exact List.mem_cons.mpr (Or.inr (hiff.mpr hcond))
          · rw [if_neg hf] at h
            simp only [Except.ok.injEq, Prod.mk.injEq] at h
            obtain ⟨_, _, htr⟩ := h
            subst htr
            constructor
            · intro e he
              obtain ⟨n, hn1, hn2, hn3⟩ := hih.1 e he
              exact ⟨n, hn1, by omega, by simp only [List.length_cons]; omega⟩
            · intro j hj
              cases j with
              | zero =>
                rw [Nat.add_zero]
                constructor
                · intro hmem
                  exact absurd hmem (head_not_in_tail i0 rest.length tr2 hih.1)
                · intro hcond
                  obtain ⟨sh2, sol2, _, _, h3⟩ := hcond
                  exact absurd h3 hf
              | succ j2 =>
                have hj2 : j2 < rest.length := by
                  simp only [List.length_cons] at hj
                  omega
                have hiff := hih.2 j2 hj2
                rw [show i0 + 1 + j2 = i0 + (j2 + 1) from by omega] at hiff
                exact hiff
      · rename_i hsolid
        split at h
        · simp at h
        · rename_i ss2 hs2 tr2 hrec
          simp only [Except.ok.injEq, Prod.mk.injEq] at h
          obtain ⟨_, _, htr⟩ := h
          subst htr
          have hih := ih (i0 + 1) ss2 hs2 tr2 hrec
          constructor
          · intro e he
            obtain ⟨n, hn1, hn2, hn3⟩ := hih.1 e he
            exact ⟨n, hn1, by omega, by simp only [List.length_cons]; omega⟩
          · intro j hj
            cases j with
            | zero =>
              rw [Nat.add_zero]
              constructor
              · intro hmem
                exact absurd hmem (head_not_in_tail i0 rest.length tr2 hih.1)
              · intro hcond
                exfalso
                have hcond2 : perSolidCond k tol m := hcond
                obtain ⟨sh2, sol2, h1, h2, _⟩ := hcond2
                rw [hshape] at h1
                injection h1 with h1b
                subst h1b
                rw [hsolid] at h2
                cases h2
            | succ j2 =>
              have hj2 : j2 < rest.length := by
                simp only [List.length_cons] at hj
                omega
              have hiff := hih.2 j2 hj2
              rw [show i0 + 1 + j2 = i0 + (j2 + 1) from by omega] at hiff
              exact hiff

/-- The three possible trace extensions of the compound-merge decision. -/
theorem compoundMergeDecision_trace (k : Kernel) (res : ConvResult) (tol : Rat)
    (total np : Nat) (final : Shape) (tr : List Ev) :
    ((np = 1 ∧ total ≤ 100000) ∧
        (compoundMergeDecision k res tol total np final tr).2.2 =
          tr ++ [Ev.compoundMerge]) ∨
    (¬(np = 1 ∧ total ≤ 100000) ∧ 1 < np ∧
        (compoundMergeDecision k res tol total np final tr).2.2 = tr ++ [Ev.multiSkip]) ∨
    (¬(np = 1 ∧ total ≤ 100000) ∧ ¬1 < np ∧
        (compoundMergeDecision k res tol total np final tr).2.2 = tr ++ [Ev.sizeSkip]) := by
  unfold compoundMergeDecision
  by_cases h1 : np = 1 ∧ total ≤ 100000
  · rw [if_pos h1]
    exact Or.inl ⟨h1, rfl⟩
  · rw [if_neg h1]
    by_cases h2 : np > 1
    · rw [if_pos h2]
      exact Or.inr (Or.inl ⟨h1, h2, rfl⟩)
    · rw [if_neg h2]
      exact Or.inr (Or.inr ⟨h1, h2, rfl⟩)

/-- The merge decisions of a whole run, as observable in the debug trace and
the result: the per-solid merge event for mesh `j` appears iff that mesh's
shape was classified a solid and it has at most 100000 facets; the
compound-level merge event appears iff exactly one mesh was processed and the
total is at most 100000; and a multi-mesh job records
`merged_per_solid = true` in the JSON result. -/
def mergeDecisionsObservable (k : Kernel) (ip op : String) (tol : Rat) (rep : Bool)
    (fmt : String) (ps : List Mesh) (total : Nat) : Prop :=
  ∀ r tr, convert k ip op tol rep false fmt = (.json r, tr) →
    (∀ j (hj : j < ps.length),
      (Ev.perSolidMerge j ∈ tr ↔ perSolidCond k tol (ps.get ⟨j, hj⟩))) ∧
    (Ev.compoundMerge ∈ tr ↔ (ps.length = 1 ∧ total ≤ 100000)) ∧
    (1 < ps.length → r.merged_per_solid = some true)

/-- C5 amended: the per-solid merge is attempted for a processed mesh iff its
shape conversion and solid classification succeed *and* its facet count is at
most 100000 (the classification condition is what `C5_counterexample` shows
the original claim missed); the compound-level merge is attempted iff exactly
one mesh was processed and the total facet count is at most 100000; for
multi-mesh jobs the skip is recorded as `merged_per_solid = true`. -/
theorem C5_amended_merge_decisions (k : Kernel) (ip op : String) (tol : Rat)
    (rep : Bool) (fmt : String) (ms : List Mesh) (bs ias : List (Nat × MeshInfo))
    (rs : List String) (ps : List Mesh)
    (hex : k.inputExists = true) (hload : load_meshes k fmt = .ok ms)
    (hne : meshesEmpty ms = false)
    (hproc : processMeshes k (skipExpensive ms) rep 0 ms = .ok (bs, ias, rs, ps)) :
    mergeDecisionsObservable k ip op tol rep fmt ps (totalFacets ms) := by
  intro r tr h
  rw [convert_main_path k ip op tol rep false fmt ms bs ias rs ps hex hload hne hproc] at h
  rcases convertProcessed_json_cases k (resAfterProcess (initRes ip op tol fmt) bs ias rs)
      tol (totalFacets ms) false ps r tr h with
    ⟨hio, _, _⟩ | ⟨_, ss, hs, tr0, b, final, hb, ha, hca⟩
  · exact absurd hio (by decide)
  · have htrace := buildShapes_trace k tol ps 0 ss hs tr0 hb
    have hnocm : Ev.compoundMerge ∉ tr0 := by
      intro hmem
      obtain ⟨n, hn1, _, _⟩ := htrace.1 _ hmem
      exact Ev.noConfusion hn1
    have main :
        (∀ j (hj : j < ps.length),
          (Ev.perSolidMerge j ∈
              (compoundMergeDecision k
                { resAfterProcess (initRes ip op tol fmt) bs ias rs with is_solid := some b }
                tol (totalFacets ms) ps.length final tr0).2.2 ↔
            perSolidCond k tol (ps.get ⟨j, hj⟩))) ∧
        (Ev.compoundMerge ∈
            (compoundMergeDecision k
              { resAfterProcess (initRes ip op tol fmt) bs ias rs with is_solid := some b }
              tol (totalFacets ms) ps.length final tr0).2.2 ↔
          (ps.length = 1 ∧ totalFacets ms ≤ 100000)) := by
      have hperj : ∀ j (hj : j < ps.length) (x : Ev), x ≠ Ev.perSolidMerge j →
          (Ev.perSolidMerge j ∈ tr0 ++ [x] ↔ perSolidCond k tol (ps.get ⟨j, hj⟩)) := by
        intro j hj x hx
        have hj0 := htrace.2 j hj
        rw [Nat.zero_add] at hj0
        rw [List.mem_append]
        constructor
        · rintro (hmem | hmem)
          · exact hj0.mp hmem
          · exact absurd (List.mem_singleton.mp hmem).symm hx
        · intro hcond
          exact Or.inl (hj0.mpr hcond)
      rcases compoundMergeDecision_trace k
          { resAfterProcess (initRes ip op tol fmt) bs ias rs with is_solid := some b }
          tol (totalFacets ms) ps.length final tr0 with
        ⟨hc, hteq⟩ | ⟨hc, hnp, hteq⟩ | ⟨hc, hnp, hteq⟩ <;> rw [hteq]
      · refine ⟨fun j hj => hperj j hj _ (by intro hx; cases hx), ?_⟩
        constructor
        · intro _
          exact hc
        · intro _
          exact List.mem_append.mpr (Or.inr (List.mem_singleton.mpr rfl))
      · refine ⟨fun j hj => hperj j hj _ (by intro hx; cases hx), ?_⟩
        constructor
        · intro hmem
          rcases List.mem_append.mp hmem with hmem | hmem
          · exact absurd hmem hnocm
          · exact absurd (List.mem_singleton.mp hmem) (by intro hx; cases hx)
        · intro hcond
          exact absurd hcond hc
      · refine ⟨fun j hj => hperj j hj _ (by intro hx; cases hx), ?_⟩
        constructor
        · intro hmem
          rcases List.mem_append.mp hmem with hmem | hmem
          · exact absurd hmem hnocm
          · exact absurd (List.mem_singleton.mp hmem) (by intro hx; cases hx)
        · intro hcond
          exact absurd hcond hc
    rcases convertAssembled_json_cases k
        { resAfterProcess (initRes ip op tol fmt) bs ias rs with is_solid := some b }
        tol (totalFacets ms) ps.length final tr0 r tr hca with
      ⟨n, hexp, hr, htr⟩ | ⟨hexp, hr, htr⟩
    · subst hr
      subst htr
      refine ⟨main.1, main.2, ?_⟩
      intro hmulti
      exact (compoundMergeDecision_multi k
        { resAfterProcess (initRes ip op tol fmt) bs ias rs with is_solid := some b }
        tol (totalFacets ms) ps.length final tr0 hmulti).2.1
    · subst hr
      subst htr
      refine ⟨main.1, main.2, ?_⟩
      intro hmulti
      exact (compoundMergeDecision_multi k
        { resAfterProcess (initRes ip op tol fmt) bs ias rs with is_solid := some b }
        tol (totalFacets ms) ps.length final tr0 hmulti).2.1

/-- Witness for C5 amended: the benign two-mesh 3MF job — both per-solid merge
events appear (both meshes classify as solids and are small), the
compound-level event does not, and the result records `merged_per_solid`. -/
theorem C5_witness :
    processMeshes kBase (skipExpensive [mCube, mCube2]) false 0 [mCube, mCube2] =
      .ok ([(0, infoCube), (1, infoCube)], [], [], [mCube, mCube2]) ∧
    mergeDecisionsObservable kBase "in.3mf" "out.step" 1 false "3mf" [mCube, mCube2]
      (totalFacets [mCube, mCube2]) :=
  ⟨rfl,
   C5_amended_merge_decisions kBase "in.3mf" "out.step" 1 false "3mf" [mCube, mCube2]
     [(0, infoCube), (1, infoCube)] [] [] [mCube, mCube2] rfl rfl rfl rfl⟩

end Stepifi
